import Mathlib

/-!
Verification of the event-memory and multimodal pipeline orchestration layer
of the real-time assistant (shallow embedding of `memory_subsystem.py`,
`audio_subsystem.py`, `camera_subsystem.py`, `ocr_subsystem.py`, `main.py`,
with configuration constants from `config.py`).

Machine time is modelled as an explicit rational-number clock passed to each
operation that reads `time.time()`.  External recognition capabilities
(pixel-level similarity, OCR text extraction, the voice-activity detector,
speaker-embedding extraction, transcription) are excluded collaborators and
are injected as function parameters, exactly at the boundary at which the
source invokes them.
-/

namespace Assistant

/-- Config constant `MAX_MEMORY_CHUNKS` from `config.py` (event-store capacity). -/
def MAX_MEMORY_CHUNKS : ℕ := 100

/-- Config constant `SUMMARY_INTERVAL_SECONDS` from `config.py`. -/
def SUMMARY_INTERVAL_SECONDS : ℚ := 180

/-- Config constant `SPEAKER_ID_THRESHOLD = 0.75` from `config.py`
(written as an explicit fraction so that it evaluates in the kernel;
`SPEAKER_ID_THRESHOLD_eq` below ties it to the decimal literal). -/
def SPEAKER_ID_THRESHOLD : ℚ := mkRat 3 4

/-- Config constant `KEYFRAME_THRESHOLD = 0.85` from `config.py`
(written as an explicit fraction so that it evaluates in the kernel;
`KEYFRAME_THRESHOLD_eq` below ties it to the decimal literal). -/
def KEYFRAME_THRESHOLD : ℚ := mkRat 17 20

/-- The inline `0.7` token-overlap threshold in `OCRSubsystem._text_changed`
(as an explicit fraction; `OCR_CHANGE_THRESHOLD_eq` ties it to the literal). -/
def OCR_CHANGE_THRESHOLD : ℚ := mkRat 7 10

/-- The summary dictionary built by `MemorySubsystem.create_summary`. -/
structure SummaryContent where
  windowStart : ℚ
  windowEnd : ℚ
  durationSeconds : ℚ
  questionsAsked : ℕ
  keyframesCaptured : ℕ
  ocrEvents : ℕ
  questions : List String
  detectedText : List String
  summaryText : String
deriving DecidableEq

/-- The `content` dictionary of a `MemoryChunk`, one variant per event kind
built by the `add_*` methods of `MemorySubsystem` (and `create_summary`). -/
inductive Content where
  | keyframe (description ocr_text : String) (confidence : ℚ)
  | question (text : String) (confidence : ℚ)
  | answer (text question : String)
  | ocr (text : String) (confidence : ℚ) (word_count : ℕ)
  | summary (s : SummaryContent)
deriving DecidableEq

/-- The `text` key of a content dictionary, when present. -/
def Content.textField : Content → Option String
  | .question t _ => some t
  | .answer t _ => some t
  | .ocr t _ _ => some t
  | _ => none

/-- `MemoryChunk` from `memory_subsystem.py`: typed event with timestamp. -/
structure MemoryChunk where
  chunk_type : String
  content : Content
  timestamp : ℚ
deriving DecidableEq

/-- The serialized form of a chunk produced by `MemoryChunk.to_dict`
(the `time_str` field is rendered by an injected wall-clock formatter). -/
structure SavedChunk where
  type : String
  content : Content
  timestamp : ℚ
  time_str : String
deriving DecidableEq

/-- `MemoryChunk.to_dict`: serialize, adding the human-readable time string. -/
def MemoryChunk.to_dict (fmt : ℚ → String) (c : MemoryChunk) : SavedChunk :=
  ⟨c.chunk_type, c.content, c.timestamp, fmt c.timestamp⟩

/-- `MemoryChunk.from_dict`: rebuild a chunk from its serialized form
(the `time_str` field is ignored). -/
def MemoryChunk.from_dict (d : SavedChunk) : MemoryChunk :=
  ⟨d.type, d.content, d.timestamp⟩

/-- One `append` on a `collections.deque` with `maxlen = cap`: when the deque
is at capacity the single oldest (leftmost) element is discarded first. -/
def dequeAppend (cap : ℕ) (xs : List α) (x : α) : List α :=
  if xs.length < cap then xs ++ [x] else xs.tail ++ [x]

/-- Python `lst[-n:]`: the last `n` elements (the whole list when shorter). -/
def takeLast (n : ℕ) (l : List α) : List α := l.drop (l.length - n)

/-- `MemorySubsystem` state: the capacity-bounded event deque, the unbounded
summaries list, and the session-state scalars. -/
structure MemorySubsystem where
  memory_chunks : List MemoryChunk
  summaries : List MemoryChunk
  last_summary_time : ℚ
  session_start_time : ℚ
  total_interactions : ℕ
deriving DecidableEq

/-- `MemorySubsystem.__init__` at construction time `t0`. -/
def MemorySubsystem.init (t0 : ℚ) : MemorySubsystem :=
  ⟨[], [], t0, t0, 0⟩

/-- `self.memory_chunks.append(chunk)` (deque with `maxlen = MAX_MEMORY_CHUNKS`). -/
def MemorySubsystem.appendChunk (st : MemorySubsystem) (c : MemoryChunk) : MemorySubsystem :=
  { st with memory_chunks := dequeAppend MAX_MEMORY_CHUNKS st.memory_chunks c }

/-- `MemorySubsystem.add_keyframe`. -/
def MemorySubsystem.add_keyframe (st : MemorySubsystem) (ocr_text : String)
    (confidence : ℚ) (now : ℚ) : MemorySubsystem :=
  st.appendChunk ⟨"keyframe", .keyframe "Visual keyframe captured" ocr_text confidence, now⟩

/-- `MemorySubsystem.add_question` (also increments `total_interactions`). -/
def MemorySubsystem.add_question (st : MemorySubsystem) (text : String)
    (confidence : ℚ) (now : ℚ) : MemorySubsystem :=
  { st.appendChunk ⟨"question", .question text confidence, now⟩ with
      total_interactions := st.total_interactions + 1 }

/-- `MemorySubsystem.add_answer`. -/
def MemorySubsystem.add_answer (st : MemorySubsystem) (text question : String)
    (now : ℚ) : MemorySubsystem :=
  st.appendChunk ⟨"answer", .answer text question, now⟩

/-- `MemorySubsystem.add_ocr_event` (skipped when the text is empty/falsy). -/
def MemorySubsystem.add_ocr_event (st : MemorySubsystem) (text : String)
    (confidence : ℚ) (word_count : ℕ) (now : ℚ) : MemorySubsystem :=
  if text = "" then st
  else st.appendChunk ⟨"ocr", .ocr text confidence word_count, now⟩

/-- `MemorySubsystem.should_create_summary` with the clock injected. -/
def MemorySubsystem.should_create_summary (st : MemorySubsystem) (now : ℚ) : Bool :=
  now - st.last_summary_time ≥ SUMMARY_INTERVAL_SECONDS

/-- Text of every `question` chunk, in buffer order. -/
def questionTexts (cs : List MemoryChunk) : List String :=
  cs.filterMap fun c => if c.chunk_type = "question" then c.content.textField else none

/-- Text of every `ocr` chunk, in buffer order. -/
def ocrTexts (cs : List MemoryChunk) : List String :=
  cs.filterMap fun c => if c.chunk_type = "ocr" then c.content.textField else none

/-- `MemorySubsystem._generate_summary_text`. -/
def generate_summary_text (questions ocr_texts : List String) : String :=
  let qn := questions.length
  let un := ocr_texts.dedup.length
  let parts :=
    (if questions ≠ [] then ["Received " ++ toString qn ++ " questions about code and errors"]
     else []) ++
    (if ocr_texts ≠ [] then ["Detected " ++ toString un ++ " unique text segments on screen"]
     else [])
  let parts := if parts = [] then ["Monitoring session with no significant activity"] else parts
  String.intercalate ". " parts ++ "."

/-- `MemorySubsystem.create_summary` with the clock injected: on an empty
buffer it returns no summary and leaves the state untouched; otherwise it
builds the summary dictionary, appends it to the (unbounded) `summaries`
list and resets `last_summary_time`. -/
def MemorySubsystem.create_summary (st : MemorySubsystem) (now : ℚ) :
    MemorySubsystem × Option SummaryContent :=
  if st.memory_chunks = [] then (st, none)
  else
    let recent_questions := questionTexts st.memory_chunks
    let recent_ocr := ocrTexts st.memory_chunks
    let recent_keyframes := st.memory_chunks.countP fun c => c.chunk_type = "keyframe"
    let summary : SummaryContent :=
      { windowStart := st.last_summary_time
        windowEnd := now
        durationSeconds := now - st.last_summary_time
        questionsAsked := recent_questions.length
        keyframesCaptured := recent_keyframes
        ocrEvents := recent_ocr.length
        questions := takeLast 5 recent_questions
        detectedText := recent_ocr.dedup.take 3
        summaryText := generate_summary_text recent_questions recent_ocr }
    ({ st with
        summaries := st.summaries ++ [⟨"summary", .summary summary, now⟩]
        last_summary_time := now },
     some summary)

/-- `MemorySubsystem.get_recent_context`: Python `list(self.memory_chunks)[-max_chunks:]`,
serialized. -/
def MemorySubsystem.get_recent_context (fmt : ℚ → String) (st : MemorySubsystem)
    (max_chunks : ℕ) : List SavedChunk :=
  (takeLast max_chunks st.memory_chunks).map (MemoryChunk.to_dict fmt)

/-- `MemorySubsystem.get_latest_summary`. -/
def MemorySubsystem.get_latest_summary (fmt : ℚ → String) (st : MemorySubsystem) :
    Option SavedChunk :=
  (st.summaries.getLast?).map (MemoryChunk.to_dict fmt)

/-- The context package built by `MemorySubsystem.get_context_for_llm`. -/
structure Context where
  session_duration : ℚ
  total_interactions : ℕ
  latest_summary : Option SavedChunk
  recent_events : List SavedChunk
deriving DecidableEq

/-- `MemorySubsystem.get_context_for_llm` with the clock injected. -/
def MemorySubsystem.get_context_for_llm (fmt : ℚ → String) (st : MemorySubsystem)
    (now : ℚ) : Context :=
  { session_duration := now - st.session_start_time
    total_interactions := st.total_interactions
    latest_summary := st.get_latest_summary fmt
    recent_events := st.get_recent_context fmt 5 }

/-- The JSON document written by `MemorySubsystem.save_to_file`. -/
structure SavedMemory where
  session_start : ℚ
  total_interactions : ℕ
  memory_chunks : List SavedChunk
  summaries : List SavedChunk
deriving DecidableEq

/-- `MemorySubsystem.save_to_file` (the document it serializes). -/
def MemorySubsystem.save_to_file (fmt : ℚ → String) (st : MemorySubsystem) : SavedMemory :=
  { session_start := st.session_start_time
    total_interactions := st.total_interactions
    memory_chunks := st.memory_chunks.map (MemoryChunk.to_dict fmt)
    summaries := st.summaries.map (MemoryChunk.to_dict fmt) }

/-- `MemorySubsystem.load_from_file` on a successfully parsed document:
clears both lists and re-appends every persisted chunk through the
capacity-bounded deque (summaries go to the unbounded plain list). -/
def MemorySubsystem.load_from_file (st : MemorySubsystem) (data : SavedMemory) :
    MemorySubsystem :=
  { st with
      session_start_time := data.session_start
      total_interactions := data.total_interactions
      memory_chunks :=
        data.memory_chunks.foldl
          (fun acc d => dequeAppend MAX_MEMORY_CHUNKS acc (MemoryChunk.from_dict d)) []
      summaries := data.summaries.map MemoryChunk.from_dict }

/-! ### Audio subsystem (`audio_subsystem.py`) -/

/-- Dot product of two embedding vectors (`np.dot`); on normalized vectors
this is the cosine similarity. -/
def dot (v w : List ℚ) : ℚ := (List.zipWith (· * ·) v w).sum

/-- `AudioSubsystem.is_user_speaking`, with the embedding extracted from the
current audio chunk injected: with no stored voiceprint every frame counts as
non-user; otherwise the speaker is the user exactly when the dot-product
similarity strictly exceeds the threshold. -/
def is_user_speaking (voiceprint : Option (List ℚ)) (embedding : List ℚ)
    (threshold : ℚ) : Bool :=
  match voiceprint with
  | none => false
  | some vp => dot embedding vp > threshold

/-- The energy fallback of `detect_voice_activity`:
`sqrt(mean(samples^2)) > 500`, stated on squares (both sides are
nonnegative, so the comparison is equivalent to `sum(samples^2) > 500^2 * n`;
an empty chunk yields `False`, as the NaN comparison does in the source). -/
def energyExceeds (chunk : List ℤ) : Bool :=
  (chunk.map fun x => x * x).sum > 250000 * (chunk.length : ℤ)

/-- The external capabilities the audio pipeline consumes, injected.
`vad = none` models the primary detector being unavailable
(`not AUDIO_AVAILABLE or not self.vad`); `vad = some f` with `f frame = none`
models `vad.is_speech` raising on that frame.  `mockDraw` is the random draw
of the mock detector used when the primary one is unavailable. -/
structure AudioCapabilities where
  vad : Option (List ℤ → Option Bool)
  mockDraw : Bool
  embed : List ℤ → List ℚ
  transcribe : List ℤ → String × ℚ

/-- Number of samples in a 30 ms frame at 16 kHz (`sample_count` in the source). -/
def VAD_FRAME_SAMPLES : ℕ := 480

/-- `AudioSubsystem.detect_voice_activity`: mock draw when the detector is
unavailable; otherwise require a full 30 ms frame, ask the detector, and on
failure fall back to the energy heuristic over the whole chunk. -/
def detect_voice_activity (caps : AudioCapabilities) (chunk : List ℤ) : Bool :=
  match caps.vad with
  | none => caps.mockDraw
  | some f =>
    if chunk.length < VAD_FRAME_SAMPLES then false
    else
      match f (chunk.take VAD_FRAME_SAMPLES) with
      | some b => b
      | none => energyExceeds chunk

/-- Python `str.lower()` (character-wise lower-casing). -/
def pyLower (s : String) : String := ⟨s.data.map Char.toLower⟩

/-- Python `str.strip()`: remove leading and trailing whitespace. -/
def pyStrip (s : String) : String :=
  ⟨((s.data.dropWhile Char.isWhitespace).reverse.dropWhile Char.isWhitespace).reverse⟩

/-- Python `s.endswith(pat)`. -/
def pyEndsWith (s pat : String) : Bool := pat.data.reverse.isPrefixOf s.data.reverse

/-- Python `s.startswith(pat)` (an anchored `re.search(r'^(...)')` alternative). -/
def pyStartsWith (s pat : String) : Bool := pat.data.isPrefixOf s.data

/-- The interrogative openers of the second `QUESTION_PATTERNS` regex in
`config.py` (`r'^(what|who|...)'`): match = any alternative is a prefix. -/
def OPENER_WORDS : List String :=
  ["what", "who", "where", "when", "why", "how", "can", "could", "would",
   "is", "are", "do", "does"]

/-- The phrases of the third `QUESTION_PATTERNS` regex
(`r'(tell me|explain|show me|help)'`): match = any phrase occurs somewhere. -/
def PHRASE_WORDS : List String := ["tell me", "explain", "show me", "help"]

/-- Whether `needle` occurs as a contiguous run inside `hay`. -/
def charsContain (needle : List Char) : List Char → Bool
  | [] => needle.isPrefixOf []
  | h :: t => needle.isPrefixOf (h :: t) || charsContain needle t

/-- Whether `pat` occurs as a substring of `s` (`re.search` of a literal). -/
def strContains (s pat : String) : Bool := charsContain pat.toList s.toList

/-- The three regexes of `config.QUESTION_PATTERNS`, shallowly embedded in
list order: `r'\?$'`, the anchored opener alternation, the phrase search. -/
def QUESTION_PATTERNS : List (String → Bool) :=
  [fun s => pyEndsWith s "?",
   fun s => OPENER_WORDS.any fun w => pyStartsWith s w,
   fun s => PHRASE_WORDS.any fun w => strContains s w]

/-- `AudioSubsystem._is_question`: lower-case and strip, return true on a
trailing question mark, else scan the configured pattern list. -/
def is_question (text : String) : Bool :=
  let t := pyStrip (pyLower text)
  if pyEndsWith t "?" then true
  else QUESTION_PATTERNS.any fun p => p t

/-- The transcription dictionary returned by `AudioSubsystem.transcribe_speech`. -/
structure Transcription where
  text : String
  is_question : Bool
  confidence : ℚ
  timestamp : ℚ
deriving DecidableEq

/-- `AudioSubsystem.process_audio_stream` with capture result and clock
injected: VAD → speaker filter → transcription → question gate, short-
circuiting to `none` at the first negative stage. -/
def process_audio_stream (caps : AudioCapabilities) (voiceprint : Option (List ℚ))
    (threshold : ℚ) (now : ℚ) (chunk : Option (List ℤ)) : Option Transcription :=
  match chunk with
  | none => none
  | some ch =>
    if ¬ detect_voice_activity caps ch then none
    else if is_user_speaking voiceprint (caps.embed ch) threshold then none
    else
      let p := caps.transcribe ch
      let tr : Transcription := ⟨p.1, is_question p.1, p.2, now⟩
      if tr.is_question then some tr else none

/-! ### Camera subsystem (`camera_subsystem.py`) -/

/-- `CameraSubsystem` state over an abstract frame type. -/
structure CameraSubsystem (F : Type) where
  previous_frame : Option F
  frame_count : ℕ
  keyframe_count : ℕ
  last_keyframe_time : ℚ

/-- `CameraSubsystem.__init__`. -/
def CameraSubsystem.init (F : Type) : CameraSubsystem F := ⟨none, 0, 0, 0⟩

/-- `CameraSubsystem.is_keyframe` with the structural-similarity score
function (the excluded pixel math, grayscale/resize included) injected:
the first frame ever seen is unconditionally a keyframe; afterwards a frame
is a keyframe exactly when its similarity to the stored reference is strictly
below `KEYFRAME_THRESHOLD`, and on a keyframe the reference is replaced. -/
def CameraSubsystem.is_keyframe (sim : F → F → ℚ) (now : ℚ)
    (st : CameraSubsystem F) (current : F) : (Bool × ℚ) × CameraSubsystem F :=
  match st.previous_frame with
  | none =>
    ((true, 0),
     { st with previous_frame := some current,
               keyframe_count := st.keyframe_count + 1,
               last_keyframe_time := now })
  | some prev =>
    let similarity := sim current prev
    if similarity < KEYFRAME_THRESHOLD then
      ((true, similarity),
       { st with previous_frame := some current,
                 keyframe_count := st.keyframe_count + 1,
                 last_keyframe_time := now })
    else
      ((false, similarity), st)

/-! ### OCR subsystem (`ocr_subsystem.py`) -/

/-- `OCRSubsystem` state. -/
structure OCRSubsystem where
  previous_text : String
  text_changes : ℕ
deriving DecidableEq

/-- `OCRSubsystem.__init__`. -/
def OCRSubsystem.init : OCRSubsystem := ⟨"", 0⟩

/-- Accumulator-passing splitter on whitespace, discarding empty pieces. -/
def wordsAux : List Char → List Char → List String
  | [], acc => if acc = [] then [] else [⟨acc.reverse⟩]
  | c :: rest, acc =>
    if c.isWhitespace then
      if acc = [] then wordsAux rest [] else ⟨acc.reverse⟩ :: wordsAux rest []
    else wordsAux rest (c :: acc)

/-- Python `str.split()` with no argument: split on whitespace runs,
discarding empty pieces. -/
def pywords (s : String) : List String := wordsAux s.data []

/-- `OCRSubsystem._text_changed`: on the very first text the previous text is
recorded and the result is whether the stripped text is nonempty; afterwards
the new text counts as changed when the fraction of its distinct tokens also
present in the previous text is strictly below 0.7, and only then is the
previous text (and change counter) updated. -/
def OCRSubsystem.text_changed (st : OCRSubsystem) (new_text : String) :
    Bool × OCRSubsystem :=
  if st.previous_text = "" then
    (pyStrip new_text ≠ "", { st with previous_text := new_text })
  else
    let newWords := (pywords new_text).dedup
    let inter := newWords.filter fun w => w ∈ pywords st.previous_text
    let similarity : ℚ := mkRat inter.length (max newWords.length 1)
    if similarity < OCR_CHANGE_THRESHOLD then
      (true, { st with previous_text := new_text, text_changes := st.text_changes + 1 })
    else
      (false, st)

/-- The result dictionary of `OCRSubsystem.extract_text`. -/
structure OcrResult where
  text : String
  confidence : ℚ
  changed : Bool
  word_count : ℕ
deriving DecidableEq

/-- `OCRSubsystem.extract_text` with the text-recognition capability
(the excluded OCR engine) injected as `ocrFn`. -/
def OCRSubsystem.extract_text (ocrFn : F → String × ℚ) (st : OCRSubsystem)
    (frame : F) : OcrResult × OCRSubsystem :=
  let p := ocrFn frame
  let r := st.text_changed p.1
  (⟨p.1, p.2, r.1, (pywords p.1).length⟩, r.2)

/-! ### Orchestrator (`main.py`) -/

/-- The subsystem state of `MultimodalAssistant` touched by the visual loop. -/
structure AssistantState (F : Type) where
  camera : CameraSubsystem F
  ocr : OCRSubsystem
  memory : MemorySubsystem
  current_ocr_text : String

/-- `MultimodalAssistant.process_camera_frame` with capture result, similarity
function, OCR capability and clock injected.  Returns the new state and the
`(frame, is_keyframe)` pair the method returns (`(None, False)` on capture
failure). -/
def process_camera_frame (sim : F → F → ℚ) (ocrFn : F → String × ℚ) (now : ℚ)
    (st : AssistantState F) (captured : Option F) :
    AssistantState F × (Option F × Bool) :=
  match captured with
  | none => (st, (none, false))
  | some frame =>
    let r := st.camera.is_keyframe sim now frame
    let isKf := r.1.1
    let cam := r.2
    if isKf then
      let e := st.ocr.extract_text ocrFn frame
      let ocrRes := e.1
      let ocrSt := e.2
      if ocrRes.changed then
        let mem := st.memory.add_ocr_event ocrRes.text ocrRes.confidence ocrRes.word_count now
        let mem := mem.add_keyframe ocrRes.text ocrRes.confidence now
        ({ camera := cam, ocr := ocrSt, memory := mem, current_ocr_text := ocrRes.text },
         (some frame, true))
      else
        ({ st with camera := cam, ocr := ocrSt }, (some frame, true))
    else
      ({ st with camera := cam }, (some frame, false))

/-! ### Helper lemmas about the capacity-bounded deque -/

theorem takeLast_of_le {l : List α} {n : ℕ} (h : l.length ≤ n) : takeLast n l = l := by
  unfold takeLast
  rw [Nat.sub_eq_zero_of_le h, List.drop_zero]

theorem takeLast_length (n : ℕ) (l : List α) : (takeLast n l).length = min n l.length := by
  unfold takeLast
  rw [List.length_drop]
  omega

theorem takeLast_suffix (n : ℕ) (l : List α) : takeLast n l <:+ l :=
  List.drop_suffix _ _

theorem takeLast_cons {l : List α} {n : ℕ} (a : α) (h : n ≤ l.length) :
    takeLast n (a :: l) = takeLast n l := by
  unfold takeLast
  have h1 : (a :: l).length - n = (l.length - n) + 1 := by
    simp only [List.length_cons]; omega
  rw [h1, List.drop_succ_cons]

theorem dequeAppend_length_le {cap : ℕ} (hcap : 0 < cap) (xs : List α) (x : α)
    (h : xs.length ≤ cap) : (dequeAppend cap xs x).length ≤ cap := by
  unfold dequeAppend
  split
  · simp only [List.length_append, List.length_singleton]; omega
  · rename_i hge
    simp only [List.length_append, List.length_singleton, List.length_tail]
    omega

theorem takeLast_dequeAppend_append {cap : ℕ} (hcap : 0 < cap) (acc : List α)
    (c : α) (cs : List α) (h : acc.length ≤ cap) :
    takeLast cap (dequeAppend cap acc c ++ cs) = takeLast cap (acc ++ c :: cs) := by
  unfold dequeAppend
  split
  · rw [List.append_assoc, List.singleton_append]
  · rename_i hge
    rcases acc with _ | ⟨a, t⟩
    · simp at hge; omega
    · have hlen : t.length + 1 = cap := by
        simp only [List.length_cons] at h hge; omega
      have h2 : cap ≤ (t ++ c :: cs).length := by
        simp only [List.length_append, List.length_cons]; omega
      simp only [List.tail_cons, List.cons_append]
      rw [takeLast_cons a h2, List.append_assoc, List.singleton_append]

theorem foldl_dequeAppend {cap : ℕ} (hcap : 0 < cap) :
    ∀ (cs acc : List α), acc.length ≤ cap →
      cs.foldl (dequeAppend cap) acc = takeLast cap (acc ++ cs)
  | [], acc, h => by
    rw [List.foldl_nil, List.append_nil, takeLast_of_le h]
  | c :: cs, acc, h => by
    rw [List.foldl_cons,
        foldl_dequeAppend hcap cs _ (dequeAppend_length_le hcap acc c h),
        takeLast_dequeAppend_append hcap acc c cs h]

theorem foldl_appendChunk_memory_chunks (cs : List MemoryChunk) :
    ∀ st : MemorySubsystem,
      (cs.foldl MemorySubsystem.appendChunk st).memory_chunks =
        cs.foldl (dequeAppend MAX_MEMORY_CHUNKS) st.memory_chunks := by
  induction cs with
  | nil => intro st; rfl
  | cons c cs ih =>
    intro st
    rw [List.foldl_cons, List.foldl_cons, ih]
    rfl

theorem takeLast_eq_reverse_take (n : ℕ) (l : List α) :
    takeLast n l = (l.reverse.take n).reverse := by
  unfold takeLast
  induction l generalizing n with
  | nil => simp
  | cons a t ih =>
    by_cases h : n ≤ t.length
    · have h1 : (a :: t).length - n = (t.length - n) + 1 := by
        simp only [List.length_cons]; omega
      rw [h1, List.drop_succ_cons, ih]
      have h2 : (t.reverse ++ [a]).take n = t.reverse.take n := by
        rw [List.take_append_of_le_length (by simpa using h)]
      simp only [List.reverse_cons, h2]
    · have h1 : (a :: t).length ≤ n := by simp only [List.length_cons]; omega
      rw [Nat.sub_eq_zero_of_le h1, List.drop_zero]
      rw [List.take_of_length_le (by simpa using h1), List.reverse_reverse]

theorem SPEAKER_ID_THRESHOLD_eq : SPEAKER_ID_THRESHOLD = 0.75 := by
  unfold SPEAKER_ID_THRESHOLD
  rw [Rat.mkRat_eq_divInt, Rat.divInt_eq_div]
  norm_num

theorem KEYFRAME_THRESHOLD_eq : KEYFRAME_THRESHOLD = 0.85 := by
  unfold KEYFRAME_THRESHOLD
  rw [Rat.mkRat_eq_divInt, Rat.divInt_eq_div]
  norm_num

theorem OCR_CHANGE_THRESHOLD_eq : OCR_CHANGE_THRESHOLD = 0.7 := by
  unfold OCR_CHANGE_THRESHOLD
  rw [Rat.mkRat_eq_divInt, Rat.divInt_eq_div]
  norm_num

/-- The token-overlap ratio in `_text_changed` is the true division of the
source (`mkRat` is written there only so the kernel can evaluate it). -/
theorem mkRat_as_div (m n : ℕ) : mkRat m n = (m : ℚ) / n := by
  rw [Rat.mkRat_eq_divInt, Rat.divInt_eq_div]
  norm_num

/-- A concrete chunk used in closed instantiations. -/
def sampleChunk : MemoryChunk := ⟨"question", .question "q" 1, 0⟩

/-- Claim C1: the event store holds at most `MAX_MEMORY_CHUNKS` (100) events
after every sequence of appends; appending at capacity evicts exactly the
single oldest event (FIFO) before insertion; and appending `N > 100` events
to a fresh store leaves exactly the last 100 appended events, a suffix of the
appended sequence, hence in chronological order with survivor order
preserved. -/
theorem C1_store_capacity_fifo :
    (∀ (t0 : ℚ) (cs : List MemoryChunk),
        ((cs.foldl MemorySubsystem.appendChunk (MemorySubsystem.init t0)).memory_chunks).length
          ≤ MAX_MEMORY_CHUNKS) ∧
    (∀ (st : MemorySubsystem) (c : MemoryChunk),
        st.memory_chunks.length = MAX_MEMORY_CHUNKS →
        (st.appendChunk c).memory_chunks = st.memory_chunks.tail ++ [c]) ∧
    (∀ (t0 : ℚ) (cs : List MemoryChunk), cs.length > MAX_MEMORY_CHUNKS →
        (cs.foldl MemorySubsystem.appendChunk (MemorySubsystem.init t0)).memory_chunks
            = takeLast MAX_MEMORY_CHUNKS cs ∧
          (cs.foldl MemorySubsystem.appendChunk (MemorySubsystem.init t0)).memory_chunks.length
            = MAX_MEMORY_CHUNKS ∧
          takeLast MAX_MEMORY_CHUNKS cs <:+ cs) := by
  have hcap : 0 < MAX_MEMORY_CHUNKS := by norm_num [MAX_MEMORY_CHUNKS]
  have hfold : ∀ (t0 : ℚ) (cs : List MemoryChunk),
      (cs.foldl MemorySubsystem.appendChunk (MemorySubsystem.init t0)).memory_chunks
        = takeLast MAX_MEMORY_CHUNKS cs := by
    intro t0 cs
    rw [foldl_appendChunk_memory_chunks]
    have : (MemorySubsystem.init t0).memory_chunks = [] := rfl
    rw [this, foldl_dequeAppend hcap cs [] (by simp), List.nil_append]
  refine ⟨?_, ?_, ?_⟩
  · intro t0 cs
    rw [hfold t0 cs, takeLast_length]
    omega
  · intro st c h
    unfold MemorySubsystem.appendChunk dequeAppend
    rw [if_neg (by omega)]
  · intro t0 cs h
    refine ⟨hfold t0 cs, ?_, takeLast_suffix _ _⟩
    rw [hfold t0 cs, takeLast_length]
    omega

/-- Witness for C1: concrete instantiations discharging each hypothesis
(a store filled to capacity, and a sequence of 101 appends). -/
theorem C1_store_capacity_fifo_witness :
    (((MemorySubsystem.init 0).appendChunk sampleChunk).memory_chunks.length
        ≤ MAX_MEMORY_CHUNKS) ∧
    (({ MemorySubsystem.init 0 with
          memory_chunks := List.replicate MAX_MEMORY_CHUNKS sampleChunk
        : MemorySubsystem }.appendChunk sampleChunk).memory_chunks
      = (List.replicate MAX_MEMORY_CHUNKS sampleChunk).tail ++ [sampleChunk]) ∧
    ((List.replicate 101 sampleChunk).foldl MemorySubsystem.appendChunk
        (MemorySubsystem.init 0)).memory_chunks
      = takeLast MAX_MEMORY_CHUNKS (List.replicate 101 sampleChunk) :=
  ⟨C1_store_capacity_fifo.1 0 [sampleChunk],
   C1_store_capacity_fifo.2.1 _ sampleChunk (by simp),
   (C1_store_capacity_fifo.2.2 0 (List.replicate 101 sampleChunk)
      (by simp [MAX_MEMORY_CHUNKS])).1⟩

/-- Counterexample to claim C2 as stated: on an *empty* store, with the
summarization interval elapsed, invoking the trigger appends no Summary at
all and does not reset the timer, so `shouldTrigger` stays true, contradicting
"for every store state ... appends exactly one Summary ... immediately false
again". -/
theorem C2_counterexample :
    MemorySubsystem.should_create_summary (MemorySubsystem.init 0) 200 = true ∧
    ((MemorySubsystem.init 0).create_summary 200).1.summaries.length = 0 ∧
    ((MemorySubsystem.init 0).create_summary 200).1.should_create_summary 200 = true := by
  refine ⟨?_, ?_, ?_⟩ <;>
    simp [MemorySubsystem.should_create_summary, MemorySubsystem.create_summary,
      MemorySubsystem.init, SUMMARY_INTERVAL_SECONDS] <;> norm_num

/-- Claim C2 (amended to nonempty stores): after construction `shouldTrigger`
is false at the construction instant; `shouldTrigger` holds exactly when
`now - lastSummaryTime ≥ 180`; on a *nonempty* store the trigger appends
exactly one Summary chunk to the unbounded summaries list, resets
`lastSummaryTime := now`, and `shouldTrigger` is immediately false again;
on an empty store the trigger appends nothing and changes nothing. -/
theorem C2_summary_scheduler :
    (∀ t0 : ℚ, (MemorySubsystem.init t0).should_create_summary t0 = false) ∧
    (∀ (st : MemorySubsystem) (now : ℚ),
        st.should_create_summary now = true ↔
          now - st.last_summary_time ≥ SUMMARY_INTERVAL_SECONDS) ∧
    (∀ (st : MemorySubsystem) (now : ℚ), st.memory_chunks ≠ [] →
        (∃ s : SummaryContent,
            (st.create_summary now).1.summaries
              = st.summaries ++ [⟨"summary", .summary s, now⟩] ∧
            (st.create_summary now).2 = some s) ∧
          (st.create_summary now).1.last_summary_time = now ∧
          (st.create_summary now).1.should_create_summary now = false) ∧
    (∀ (st : MemorySubsystem) (now : ℚ), st.memory_chunks = [] →
        st.create_summary now = (st, none)) := by
  refine ⟨?_, ?_, ?_, ?_⟩
  · intro t0
    simp [MemorySubsystem.should_create_summary, MemorySubsystem.init,
      SUMMARY_INTERVAL_SECONDS]
  · intro st now
    simp [MemorySubsystem.should_create_summary]
  · intro st now h
    rw [MemorySubsystem.create_summary]
    rw [if_neg h]
    refine ⟨⟨_, rfl, rfl⟩, rfl, ?_⟩
    simp [MemorySubsystem.should_create_summary, SUMMARY_INTERVAL_SECONDS]
  · intro st now h
    rw [MemorySubsystem.create_summary, if_pos h]

/-- Witness for C2 (amended): a concrete nonempty store at a concrete clock,
discharging each hypothesis. -/
theorem C2_summary_scheduler_witness :
    (∃ s : SummaryContent,
        (((MemorySubsystem.init 0).add_question "q" 1 10).create_summary 200).1.summaries
          = ((MemorySubsystem.init 0).add_question "q" 1 10).summaries
              ++ [⟨"summary", .summary s, 200⟩] ∧
        (((MemorySubsystem.init 0).add_question "q" 1 10).create_summary 200).2 = some s) ∧
    (((MemorySubsystem.init 0).add_question "q" 1 10).create_summary 200).1.last_summary_time
      = 200 ∧
    (((MemorySubsystem.init 0).add_question "q" 1 10).create_summary
        200).1.should_create_summary 200 = false :=
  (C2_summary_scheduler.2.2.1 _ 200 (by
    simp [MemorySubsystem.add_question, MemorySubsystem.appendChunk,
      MemorySubsystem.init, dequeAppend]))

/-- Counterexample to claim C3 as stated: at speaker threshold exactly 1.0,
a vector with cosine similarity 1.0 to the stored voiceprint (the voiceprint
itself, normalized) is *not* classified as the user, because the source uses
a strict comparison `similarity > threshold`. -/
theorem C3_counterexample :
    dot [(1 : ℚ)] [(1 : ℚ)] = 1 ∧ ((1 : ℚ) ≤ 1) ∧
    is_user_speaking (some [(1 : ℚ)]) [(1 : ℚ)] 1 = false := by
  refine ⟨by norm_num [dot], le_refl 1, ?_⟩
  simp [is_user_speaking, dot]

/-- Claim C3 (amended to strict thresholds): for every stored voiceprint and
threshold `t < 1.0`, an embedding with cosine similarity 1.0 is classified as
the user, and the audio pipeline then returns no question; an embedding with
similarity 0.0 is classified as non-user for every nonnegative threshold; in
general the speaker is classified as the user exactly when the similarity
strictly exceeds the threshold (default `SPEAKER_ID_THRESHOLD = 0.75`). -/
theorem C3_speaker_filter :
    (∀ (vp : List ℚ) (t : ℚ), dot vp vp = 1 → t < 1 →
        is_user_speaking (some vp) vp t = true) ∧
    (∀ (vp emb : List ℚ) (t : ℚ), dot emb vp = 0 → 0 ≤ t →
        is_user_speaking (some vp) emb t = false) ∧
    (∀ (vp emb : List ℚ) (t : ℚ),
        is_user_speaking (some vp) emb t = true ↔ dot emb vp > t) ∧
    (∀ (vp emb : List ℚ),
        is_user_speaking (some vp) emb SPEAKER_ID_THRESHOLD = true ↔
          dot emb vp > 0.75) ∧
    (∀ (caps : AudioCapabilities) (vp : List ℚ) (t now : ℚ) (ch : List ℤ),
        is_user_speaking (some vp) (caps.embed ch) t = true →
        process_audio_stream caps (some vp) t now (some ch) = none) := by
  refine ⟨?_, ?_, ?_, ?_, ?_⟩
  · intro vp t h ht
    simp only [is_user_speaking, h, decide_eq_true_eq]
    exact ht
  · intro vp emb t h ht
    simp only [is_user_speaking, h, decide_eq_false_iff_not]
    exact not_lt.mpr ht
  · intro vp emb t
    simp [is_user_speaking]
  · intro vp emb
    simp [is_user_speaking, SPEAKER_ID_THRESHOLD_eq]
  · intro caps vp t now ch h
    unfold process_audio_stream
    by_cases hv : detect_voice_activity caps ch
    · simp [hv, h]
    · simp [hv]

/-- Witness for C3 (amended): concrete voiceprints, embeddings and thresholds
discharging each hypothesis. -/
theorem C3_speaker_filter_witness :
    is_user_speaking (some [(1 : ℚ)]) [(1 : ℚ)] (1 / 2) = true ∧
    is_user_speaking (some [(1 : ℚ), 0]) [(0 : ℚ), 1] SPEAKER_ID_THRESHOLD = false ∧
    process_audio_stream ⟨none, true, fun _ => [(1 : ℚ)], fun _ => ("", 0)⟩
        (some [(1 : ℚ)]) (1 / 2) 0 (some [0]) = none :=
  ⟨C3_speaker_filter.1 [(1 : ℚ)] (1 / 2) (by norm_num [dot]) (by norm_num),
   C3_speaker_filter.2.1 [(1 : ℚ), 0] [(0 : ℚ), 1] SPEAKER_ID_THRESHOLD
     (by norm_num [dot]) (by rw [SPEAKER_ID_THRESHOLD_eq]; norm_num),
   C3_speaker_filter.2.2.2.2 ⟨none, true, fun _ => [(1 : ℚ)], fun _ => ("", 0)⟩
     [(1 : ℚ)] (1 / 2) 0 [0] (by norm_num [is_user_speaking, dot])⟩

/-- Claim C4: the question classifier returns true exactly when the
lower-cased, stripped transcript ends with a question mark, starts with one
of the configured interrogative openers, or contains one of the configured
phrases; the spec's four example transcripts classify as stated. -/
theorem C4_question_classifier :
    (∀ s : String,
        is_question s =
          (pyEndsWith (pyStrip (pyLower s)) "?"
            || OPENER_WORDS.any (fun w => pyStartsWith (pyStrip (pyLower s)) w)
            || PHRASE_WORDS.any (fun w => strContains (pyStrip (pyLower s)) w))) ∧
    is_question "What does this do?" = true ∧
    is_question "Can you explain this?" = true ∧
    is_question "WHAT is this" = true ∧
    is_question "This looks good" = false := by
  refine ⟨?_, by decide, by decide, by decide, by decide⟩
  intro s
  unfold is_question QUESTION_PATTERNS
  by_cases h : pyEndsWith (pyStrip (pyLower s)) "?" <;>
    simp [h, List.any_cons]

/-- Claim C5: the context package for the answer-generation capability is
exactly the four-field record `{sessionDuration, totalInteractions,
latestSummary, recentEvents}`, where `latestSummary` is the most recently
appended summary (none when no summary exists) and `recentEvents` is the most
recently appended five events (fewer when the store holds less), in
chronological order, oldest of the selected window first — a window of
length `min 5 len` that is a suffix of the buffer. -/
theorem C5_context_package :
    ∀ (fmt : ℚ → String) (st : MemorySubsystem) (now : ℚ),
      st.get_context_for_llm fmt now =
        { session_duration := now - st.session_start_time
          total_interactions := st.total_interactions
          latest_summary := (st.summaries.getLast?).map (MemoryChunk.to_dict fmt)
          recent_events :=
            ((st.memory_chunks.reverse.take 5).reverse).map (MemoryChunk.to_dict fmt) } ∧
      (st.get_context_for_llm fmt now).recent_events.length
        = min 5 st.memory_chunks.length ∧
      takeLast 5 st.memory_chunks <:+ st.memory_chunks ∧
      (st.get_context_for_llm fmt now).recent_events
        = (takeLast 5 st.memory_chunks).map (MemoryChunk.to_dict fmt) := by
  intro fmt st now
  refine ⟨?_, ?_, takeLast_suffix _ _, rfl⟩
  · unfold MemorySubsystem.get_context_for_llm MemorySubsystem.get_recent_context
      MemorySubsystem.get_latest_summary
    rw [takeLast_eq_reverse_take]
  · show ((takeLast 5 st.memory_chunks).map (MemoryChunk.to_dict fmt)).length = _
    rw [List.length_map, takeLast_length]

/-- Counterexample to claim C6 as stated: a frame judged a keyframe whose
recognized text has full token overlap with the previous OCR text appends
*no* Keyframe event (the source only appends both events inside the
`ocr_result['changed']` branch), yet the method reports the frame as a
keyframe. -/
theorem C6_counterexample :
    (process_camera_frame (fun _ _ => (0 : ℚ)) (fun _ => ("a b c", 1)) 0
        ⟨⟨some 0, 1, 1, 0⟩, ⟨"a b c", 0⟩, MemorySubsystem.init 0, ""⟩
        (some (1 : ℕ))).2 = (some 1, true) ∧
    (process_camera_frame (fun _ _ => (0 : ℚ)) (fun _ => ("a b c", 1)) 0
        ⟨⟨some 0, 1, 1, 0⟩, ⟨"a b c", 0⟩, MemorySubsystem.init 0, ""⟩
        (some (1 : ℕ))).1.memory.memory_chunks = [] := by
  constructor <;> decide

/-- Claim C6 (amended): in the visual loop, on a frame judged a keyframe the
Keyframe event — and, when the text is nonempty, the OcrText event — are
appended exactly when the recognized text differs meaningfully from the
immediately previous OCR text (token-set overlap below 70%, as decided by
`OCRSubsystem.text_changed`); on a keyframe with unchanged text, and on a
non-keyframe frame, no event is appended. -/
theorem C6_visual_loop_appends :
    ∀ (F : Type) (sim : F → F → ℚ) (ocrFn : F → String × ℚ) (now : ℚ)
      (st : AssistantState F) (f : F),
      ((st.camera.is_keyframe sim now f).1.1 = false →
        (process_camera_frame sim ocrFn now st (some f)).1.memory = st.memory ∧
        (process_camera_frame sim ocrFn now st (some f)).2 = (some f, false)) ∧
      ((st.camera.is_keyframe sim now f).1.1 = true →
        (st.ocr.extract_text ocrFn f).1.changed = false →
        (process_camera_frame sim ocrFn now st (some f)).1.memory = st.memory ∧
        (process_camera_frame sim ocrFn now st (some f)).2 = (some f, true)) ∧
      ((st.camera.is_keyframe sim now f).1.1 = true →
        (st.ocr.extract_text ocrFn f).1.changed = true →
        (process_camera_frame sim ocrFn now st (some f)).1.memory.memory_chunks =
          dequeAppend MAX_MEMORY_CHUNKS
            ((st.memory.add_ocr_event (st.ocr.extract_text ocrFn f).1.text
                (st.ocr.extract_text ocrFn f).1.confidence
                (st.ocr.extract_text ocrFn f).1.word_count now).memory_chunks)
            ⟨"keyframe",
             .keyframe "Visual keyframe captured" (st.ocr.extract_text ocrFn f).1.text
               (st.ocr.extract_text ocrFn f).1.confidence, now⟩ ∧
        (process_camera_frame sim ocrFn now st (some f)).2 = (some f, true)) := by
  intro F sim ocrFn now st f
  refine ⟨?_, ?_, ?_⟩
  · intro h
    unfold process_camera_frame
    simp [h]
  · intro h hc
    unfold process_camera_frame
    simp [h, hc]
  · intro h hc
    unfold process_camera_frame
    simp [h, hc, MemorySubsystem.add_keyframe, MemorySubsystem.appendChunk]

/-- Witness for C6 (amended): concrete frames exercising the
keyframe-with-changed-text branch and the non-keyframe branch. -/
theorem C6_visual_loop_appends_witness :
    ((process_camera_frame (fun _ _ => (1 : ℚ)) (fun _ => ("x", 1)) 0
        ⟨⟨some 0, 1, 1, 0⟩, OCRSubsystem.init, MemorySubsystem.init 0, ""⟩
        (some (1 : ℕ))).1.memory = MemorySubsystem.init 0 ∧
      (process_camera_frame (fun _ _ => (1 : ℚ)) (fun _ => ("x", 1)) 0
        ⟨⟨some 0, 1, 1, 0⟩, OCRSubsystem.init, MemorySubsystem.init 0, ""⟩
        (some (1 : ℕ))).2 = (some 1, false)) ∧
    ((process_camera_frame (fun _ _ => (0 : ℚ)) (fun _ => ("x", 1)) 0
        ⟨⟨some 0, 1, 1, 0⟩, OCRSubsystem.init, MemorySubsystem.init 0, ""⟩
        (some (1 : ℕ))).1.memory.memory_chunks =
      dequeAppend MAX_MEMORY_CHUNKS
        (((MemorySubsystem.init 0).add_ocr_event "x" 1 1 0).memory_chunks)
        ⟨"keyframe", .keyframe "Visual keyframe captured" "x" 1, 0⟩) := by
  refine ⟨(C6_visual_loop_appends ℕ (fun _ _ => (1 : ℚ)) (fun _ => ("x", 1)) 0
      ⟨⟨some 0, 1, 1, 0⟩, OCRSubsystem.init, MemorySubsystem.init 0, ""⟩ 1).1 ?_, ?_⟩
  · simp [CameraSubsystem.is_keyframe, KEYFRAME_THRESHOLD_eq]; norm_num
  · have h := (C6_visual_loop_appends ℕ (fun _ _ => (0 : ℚ)) (fun _ => ("x", 1)) 0
      ⟨⟨some 0, 1, 1, 0⟩, OCRSubsystem.init, MemorySubsystem.init 0, ""⟩ 1).2.2
      (by simp [CameraSubsystem.is_keyframe, KEYFRAME_THRESHOLD_eq]; norm_num)
      (by decide)
    exact h.1.trans (by decide)

/-- Claim C7: the first frame ever evaluated is unconditionally a keyframe
and becomes the reference; a subsequent frame is a keyframe iff its
similarity to the reference is strictly below `KEYFRAME_THRESHOLD = 0.85`
(so a frame with similarity 1.0 never triggers and any frame with
nonpositive similarity triggers); on each keyframe the reference is replaced
by the current frame, and on a non-keyframe it is kept. -/
theorem C7_keyframe_gate :
    ∀ (F : Type) (sim : F → F → ℚ) (now : ℚ) (st : CameraSubsystem F) (f prev : F),
      (st.previous_frame = none →
        (st.is_keyframe sim now f).1.1 = true ∧
        (st.is_keyframe sim now f).2.previous_frame = some f) ∧
      (st.previous_frame = some prev →
        ((st.is_keyframe sim now f).1.1 = true ↔ sim f prev < KEYFRAME_THRESHOLD)) ∧
      (st.previous_frame = some prev → sim f prev = 1 →
        (st.is_keyframe sim now f).1.1 = false) ∧
      (st.previous_frame = some prev → sim f prev ≤ 0 →
        (st.is_keyframe sim now f).1.1 = true) ∧
      (st.previous_frame = some prev → (st.is_keyframe sim now f).1.1 = true →
        (st.is_keyframe sim now f).2.previous_frame = some f) ∧
      (st.previous_frame = some prev → (st.is_keyframe sim now f).1.1 = false →
        (st.is_keyframe sim now f).2 = st) := by
  intro F sim now st f prev
  refine ⟨?_, ?_, ?_, ?_, ?_, ?_⟩
  · intro h
    unfold CameraSubsystem.is_keyframe
    rw [h]
    exact ⟨rfl, rfl⟩
  · intro h
    unfold CameraSubsystem.is_keyframe
    rw [h]
    by_cases hs : sim f prev < KEYFRAME_THRESHOLD <;> simp [hs]
  · intro h hs
    unfold CameraSubsystem.is_keyframe
    rw [h]
    have : ¬ sim f prev < KEYFRAME_THRESHOLD := by
      rw [hs, KEYFRAME_THRESHOLD_eq]; norm_num
    simp [this]
  · intro h hs
    unfold CameraSubsystem.is_keyframe
    rw [h]
    have : sim f prev < KEYFRAME_THRESHOLD := by
      have : (0 : ℚ) < KEYFRAME_THRESHOLD := by rw [KEYFRAME_THRESHOLD_eq]; norm_num
      linarith
    simp [this]
  · intro h hk
    unfold CameraSubsystem.is_keyframe at hk ⊢
    rw [h] at hk ⊢
    by_cases hs : sim f prev < KEYFRAME_THRESHOLD
    · simp [hs]
    · simp [hs] at hk
  · intro h hk
    unfold CameraSubsystem.is_keyframe at hk ⊢
    rw [h] at hk ⊢
    by_cases hs : sim f prev < KEYFRAME_THRESHOLD
    · simp [hs] at hk
    · simp [hs]

/-- Witness for C7: a two-element frame type with a concrete similarity
function, exercising the cold start, the identical frame, the dissimilar
frame and both reference-update branches. -/
theorem C7_keyframe_gate_witness :
    ((CameraSubsystem.init ℕ).is_keyframe (fun _ _ => (1 : ℚ)) 0 5).1.1 = true ∧
    (({ previous_frame := some 5, frame_count := 1, keyframe_count := 1,
        last_keyframe_time := 0 : CameraSubsystem ℕ}.is_keyframe
        (fun _ _ => (1 : ℚ)) 0 5).1.1 = false) ∧
    (({ previous_frame := some 5, frame_count := 1, keyframe_count := 1,
        last_keyframe_time := 0 : CameraSubsystem ℕ}.is_keyframe
        (fun _ _ => (0 : ℚ)) 0 7).1.1 = true) ∧
    (({ previous_frame := some 5, frame_count := 1, keyframe_count := 1,
        last_keyframe_time := 0 : CameraSubsystem ℕ}.is_keyframe
        (fun _ _ => (0 : ℚ)) 0 7).2.previous_frame = some 7) :=
  ⟨((C7_keyframe_gate ℕ (fun _ _ => (1 : ℚ)) 0 (CameraSubsystem.init ℕ) 5 5).1 rfl).1,
   (C7_keyframe_gate ℕ (fun _ _ => (1 : ℚ)) 0 _ 5 5).2.2.1 rfl rfl,
   by
    have h := (C7_keyframe_gate ℕ (fun _ _ => (0 : ℚ)) 0
      { previous_frame := some 5, frame_count := 1, keyframe_count := 1,
        last_keyframe_time := 0 : CameraSubsystem ℕ} 7 5).2.2.2.1 rfl le_rfl
    exact h,
   by
    have hk := (C7_keyframe_gate ℕ (fun _ _ => (0 : ℚ)) 0
      { previous_frame := some 5, frame_count := 1, keyframe_count := 1,
        last_keyframe_time := 0 : CameraSubsystem ℕ} 7 5).2.2.2.1 rfl le_rfl
    exact (C7_keyframe_gate ℕ (fun _ _ => (0 : ℚ)) 0
      { previous_frame := some 5, frame_count := 1, keyframe_count := 1,
        last_keyframe_time := 0 : CameraSubsystem ℕ} 7 5).2.2.2.2.1 rfl hk⟩

/-- Claim C8: for a store whose event list is within capacity, saving and
then loading into any fresh store restores the event list and the summary
list identically (types, contents and timestamps), along with the session
scalars; and loading a persisted event list that exceeds capacity retains
only the most recent `MAX_MEMORY_CHUNKS` events. -/
theorem C8_persistence_roundtrip :
    (∀ (fmt : ℚ → String) (st st2 : MemorySubsystem),
        st.memory_chunks.length ≤ MAX_MEMORY_CHUNKS →
        (st2.load_from_file (st.save_to_file fmt)).memory_chunks = st.memory_chunks ∧
        (st2.load_from_file (st.save_to_file fmt)).summaries = st.summaries ∧
        (st2.load_from_file (st.save_to_file fmt)).session_start_time
          = st.session_start_time ∧
        (st2.load_from_file (st.save_to_file fmt)).total_interactions
          = st.total_interactions) ∧
    (∀ (st2 : MemorySubsystem) (data : SavedMemory),
        data.memory_chunks.length > MAX_MEMORY_CHUNKS →
        (st2.load_from_file data).memory_chunks =
          takeLast MAX_MEMORY_CHUNKS (data.memory_chunks.map MemoryChunk.from_dict)) := by
  have hcap : 0 < MAX_MEMORY_CHUNKS := by norm_num [MAX_MEMORY_CHUNKS]
  have hrt : ∀ (fmt : ℚ → String) (c : MemoryChunk),
      MemoryChunk.from_dict (c.to_dict fmt) = c := fun _ _ => rfl
  have hload : ∀ (st2 : MemorySubsystem) (data : SavedMemory),
      (st2.load_from_file data).memory_chunks =
        takeLast MAX_MEMORY_CHUNKS (data.memory_chunks.map MemoryChunk.from_dict) := by
    intro st2 data
    show data.memory_chunks.foldl
        (fun acc d => dequeAppend MAX_MEMORY_CHUNKS acc (MemoryChunk.from_dict d)) []
      = _
    rw [← List.foldl_map (f := MemoryChunk.from_dict)
        (g := dequeAppend MAX_MEMORY_CHUNKS),
      foldl_dequeAppend hcap _ [] (by simp), List.nil_append]
  refine ⟨?_, ?_⟩
  · intro fmt st st2 h
    refine ⟨?_, ?_, rfl, rfl⟩
    · rw [hload]
      show takeLast MAX_MEMORY_CHUNKS
          ((st.memory_chunks.map (MemoryChunk.to_dict fmt)).map MemoryChunk.from_dict) = _
      rw [List.map_map]
      have : MemoryChunk.from_dict ∘ MemoryChunk.to_dict fmt = id := funext fun c => rfl
      rw [this, List.map_id]
      exact takeLast_of_le h
    · show (st.summaries.map (MemoryChunk.to_dict fmt)).map MemoryChunk.from_dict = _
      rw [List.map_map]
      have : MemoryChunk.from_dict ∘ MemoryChunk.to_dict fmt = id := funext fun c => rfl
      rw [this, List.map_id]
  · intro st2 data _
    exact hload st2 data

/-- A persisted document with 101 identical event records, for the witness. -/
def overCapacityDoc : SavedMemory :=
  ⟨0, 0, List.replicate 101 ⟨"question", .question "q" 1, 0, ""⟩, []⟩

/-- Witness for C8: a concrete one-event store round-trips, and a concrete
101-event document is truncated on load. -/
theorem C8_persistence_roundtrip_witness :
    (((MemorySubsystem.init 0).add_question "q" 1 5).load_from_file
        ((((MemorySubsystem.init 0).add_question "q" 1 5)).save_to_file fun _ => "t")
      ).memory_chunks = ((MemorySubsystem.init 0).add_question "q" 1 5).memory_chunks ∧
    ((MemorySubsystem.init 0).load_from_file overCapacityDoc).memory_chunks =
      takeLast MAX_MEMORY_CHUNKS (overCapacityDoc.memory_chunks.map MemoryChunk.from_dict) :=
  ⟨(C8_persistence_roundtrip.1 (fun _ => "t") ((MemorySubsystem.init 0).add_question "q" 1 5)
      ((MemorySubsystem.init 0).add_question "q" 1 5) (by decide)).1,
   C8_persistence_roundtrip.2 (MemorySubsystem.init 0) overCapacityDoc
     (by
       show (List.replicate 101
           (⟨"question", .question "q" 1, 0, ""⟩ : SavedChunk)).length > MAX_MEMORY_CHUNKS
       rw [List.length_replicate]
       norm_num [MAX_MEMORY_CHUNKS])⟩

/-- Counterexample to claim C9 as stated: when the primary voice-activity
detector is *unavailable* the source substitutes a random mock detector, not
the energy heuristic — here the mock draw says "speech" on an all-zero
(zero-energy) chunk, while the claimed root-mean-square test says no speech.
The energy heuristic is substituted only when an available detector *fails*. -/
theorem C9_counterexample :
    detect_voice_activity ⟨none, true, fun _ => [], fun _ => ("", 0)⟩ [0, 0, 0] = true ∧
    energyExceeds [0, 0, 0] = false := by
  exact ⟨rfl, by decide⟩

/-- Claim C9 (amended): when the primary detector is available but fails on a
frame of sufficient length, the energy heuristic is substituted — the frame
counts as speech exactly when `energyExceeds` holds (RMS above the fixed
threshold); when the detector is unavailable the injected mock decides
instead; and a frame with no detected speech makes the pipeline return
`none` whatever the downstream capabilities are. -/
theorem C9_vad_fallback :
    (∀ (caps : AudioCapabilities) (f : List ℤ → Option Bool) (ch : List ℤ),
        caps.vad = some f → VAD_FRAME_SAMPLES ≤ ch.length →
        f (ch.take VAD_FRAME_SAMPLES) = none →
        detect_voice_activity caps ch = energyExceeds ch) ∧
    (∀ (caps : AudioCapabilities) (ch : List ℤ),
        caps.vad = none → detect_voice_activity caps ch = caps.mockDraw) ∧
    (∀ (caps : AudioCapabilities) (vp : Option (List ℚ)) (t now : ℚ) (ch : List ℤ),
        detect_voice_activity caps ch = false →
        process_audio_stream caps vp t now (some ch) = none) := by
  refine ⟨?_, ?_, ?_⟩
  · intro caps f ch hv hlen hf
    unfold detect_voice_activity
    rw [hv]
    simp only [hf]
    rw [if_neg (by omega)]
  · intro caps ch hv
    unfold detect_voice_activity
    rw [hv]
  · intro caps vp t now ch h
    unfold process_audio_stream
    simp [h]

/-- Witness for C9 (amended): a failing available detector on a 480-sample
zero frame, an unavailable detector, and a no-speech frame short-circuiting
the pipeline. -/
theorem C9_vad_fallback_witness :
    detect_voice_activity ⟨some fun _ => none, true, fun _ => [], fun _ => ("", 0)⟩
        (List.replicate 480 0)
      = energyExceeds (List.replicate 480 0) ∧
    detect_voice_activity ⟨none, false, fun _ => [], fun _ => ("", 0)⟩ [] = false ∧
    process_audio_stream ⟨none, false, fun _ => [], fun _ => ("", 0)⟩ none 0 0 (some [])
      = none :=
  ⟨C9_vad_fallback.1 ⟨some fun _ => none, true, fun _ => [], fun _ => ("", 0)⟩
      (fun _ => none) (List.replicate 480 0) rfl
      (by rw [List.length_replicate]; norm_num [VAD_FRAME_SAMPLES]) rfl,
   C9_vad_fallback.2.1 ⟨none, false, fun _ => [], fun _ => ("", 0)⟩ [] rfl,
   C9_vad_fallback.2.2 ⟨none, false, fun _ => [], fun _ => ("", 0)⟩ none 0 0 [] rfl⟩

/-- Claim C10: with no stored voiceprint the speaker-identity check
classifies every frame as non-user speech, and every chunk passing
voice-activity detection proceeds to transcription — the pipeline result is
exactly the transcription-and-question-gate outcome, never a user-filter
rejection. -/
theorem C10_no_voiceprint :
    (∀ (emb : List ℚ) (t : ℚ), is_user_speaking none emb t = false) ∧
    (∀ (caps : AudioCapabilities) (t now : ℚ) (ch : List ℤ),
        detect_voice_activity caps ch = true →
        process_audio_stream caps none t now (some ch) =
          (if is_question (caps.transcribe ch).1 then
            some ⟨(caps.transcribe ch).1, is_question (caps.transcribe ch).1,
                  (caps.transcribe ch).2, now⟩
           else none)) := by
  refine ⟨fun emb t => rfl, ?_⟩
  intro caps t now ch h
  unfold process_audio_stream
  simp [h, is_user_speaking]

/-- Witness for C10: a concrete mock-speech chunk with no voiceprint reaches
transcription and is returned as a question. -/
theorem C10_no_voiceprint_witness :
    process_audio_stream ⟨none, true, fun _ => [], fun _ => ("what", 1)⟩ none 0 0 (some [])
      = (if is_question "what" then some ⟨"what", is_question "what", 1, 0⟩ else none) :=
  C10_no_voiceprint.2 ⟨none, true, fun _ => [], fun _ => ("what", 1)⟩ 0 0 [] rfl

end Assistant
